import Mathlib

/-!
Verification of the AI-SWE framework registries (tasks, challenges, solutions)
and the cross-registry evaluator.

The development shallowly embeds the Python source:
* `framework/__init__.py`   : task taxonomy enums, `AITask`, `FrameworkRegistry`
* `challenges/__init__.py`  : `ChallengeMetrics`, `Challenge`, `ChallengeRegistry`
* `solutions/__init__.py`   : `SolutionMetrics`, `Solution`, `SolutionRegistry`
* `evaluate.py`             : `FrameworkEvaluator`

Python floats in the source are decimal literals combined by `*`, `-`, `/` and
`max`; they are modelled exactly by `ℚ`.  Python dicts keyed by strings are
modelled as association lists in insertion order (CPython dicts preserve
insertion order; updating an existing key keeps its position, a new key is
appended).  Python sets of strings (`affected_tasks`, `addressed_challenges`)
are only ever used for membership tests and are modelled as lists of strings.

Free-text payload fields (`description`, `symptoms`, `root_causes`,
`examples`, `technical_approach`, `implementation_steps`, `success_criteria`,
`risks_limitations`, `benchmarks`, per-task `challenges` hint lists and
`related_solutions`) are carried by the dataclasses but are never read by any
registry or evaluator operation verified here; they are omitted from the
embedded records.
-/

namespace AiSwe

/-! ### Enumerations (`framework/__init__.py`) -/

/-- `ScopeMeasure`: extent of changes the AI makes to the codebase. -/
inductive ScopeMeasure where
  | FUNCTION_LEVEL
  | UNIT_LEVEL
  | PROJECT_LEVEL
deriving DecidableEq

/-- The `.value` string of each `ScopeMeasure` member. -/
def ScopeMeasure.value : ScopeMeasure → String
  | .FUNCTION_LEVEL => "function"
  | .UNIT_LEVEL => "unit"
  | .PROJECT_LEVEL => "project"

/-- All `ScopeMeasure` members in declaration order (Python enum iteration order). -/
def ScopeMeasure.all : List ScopeMeasure :=
  [.FUNCTION_LEVEL, .UNIT_LEVEL, .PROJECT_LEVEL]

/-- `LogicalComplexity`: reasoning abilities required. -/
inductive LogicalComplexity where
  | LOW
  | MEDIUM
  | HIGH
deriving DecidableEq

/-- The `.value` string of each `LogicalComplexity` member. -/
def LogicalComplexity.value : LogicalComplexity → String
  | .LOW => "low"
  | .MEDIUM => "medium"
  | .HIGH => "high"

/-- All `LogicalComplexity` members in declaration order. -/
def LogicalComplexity.all : List LogicalComplexity := [.LOW, .MEDIUM, .HIGH]

/-- `HumanIntervention`: degree of autonomy in AI-human collaboration. -/
inductive HumanIntervention where
  | LOW
  | MEDIUM
  | HIGH
deriving DecidableEq

/-- The `.value` string of each `HumanIntervention` member. -/
def HumanIntervention.value : HumanIntervention → String
  | .LOW => "low"
  | .MEDIUM => "medium"
  | .HIGH => "high"

/-- All `HumanIntervention` members in declaration order. -/
def HumanIntervention.all : List HumanIntervention := [.LOW, .MEDIUM, .HIGH]

/-- `TaskCategory`: main categories of AI-SWE tasks. -/
inductive TaskCategory where
  | CODE_GENERATION
  | CODE_TRANSFORMATION
  | TESTING_ANALYSIS
  | SOFTWARE_MAINTENANCE
  | SCAFFOLDING_METACODE
  | FORMAL_VERIFICATION
deriving DecidableEq

/-- The `.value` string of each `TaskCategory` member. -/
def TaskCategory.value : TaskCategory → String
  | .CODE_GENERATION => "code_generation"
  | .CODE_TRANSFORMATION => "code_transformation"
  | .TESTING_ANALYSIS => "testing_analysis"
  | .SOFTWARE_MAINTENANCE => "software_maintenance"
  | .SCAFFOLDING_METACODE => "scaffolding_metacode"
  | .FORMAL_VERIFICATION => "formal_verification"

/-- All `TaskCategory` members in declaration order. -/
def TaskCategory.all : List TaskCategory :=
  [.CODE_GENERATION, .CODE_TRANSFORMATION, .TESTING_ANALYSIS,
   .SOFTWARE_MAINTENANCE, .SCAFFOLDING_METACODE, .FORMAL_VERIFICATION]

/-! ### Enumerations (`challenges/__init__.py`) -/

/-- `ChallengeCategory`: the nine key challenge categories. -/
inductive ChallengeCategory where
  | EVALUATION_BENCHMARKS
  | EFFECTIVE_TOOL_USAGE
  | HUMAN_AI_COLLABORATION
  | LONG_HORIZON_PLANNING
  | LARGE_SCOPE_CONTEXTS
  | SEMANTIC_UNDERSTANDING
  | LOW_RESOURCE_ADAPTATION
  | VERSION_MANAGEMENT
  | HIGH_COMPLEXITY_OOD
deriving DecidableEq

/-- `SeverityLevel`: impact severity of challenges. -/
inductive SeverityLevel where
  | CRITICAL
  | HIGH
  | MEDIUM
  | LOW
deriving DecidableEq

/-! ### Enumerations (`solutions/__init__.py`) -/

/-- `SolutionCategory`: the four main solution pathways. -/
inductive SolutionCategory where
  | DATA_COLLECTION
  | TRAINING_METHODS
  | INFERENCE_APPROACHES
  | FRAMEWORK_INTEGRATION
deriving DecidableEq

/-- `ImplementationStatus`: current implementation status of a solution. -/
inductive ImplementationStatus where
  | RESEARCH
  | PROTOTYPE
  | PRODUCTION
  | DEPLOYED
deriving DecidableEq

/-- `EffectivenessLevel`: expected effectiveness of a solution. -/
inductive EffectivenessLevel where
  | HIGH
  | MEDIUM
  | LOW
  | UNKNOWN
deriving DecidableEq

/-! ### Task data model (`framework/__init__.py`) -/

/-- `TaskMetrics`: three-dimensional measurement of an AI-SWE task. -/
structure TaskMetrics where
  scope : ScopeMeasure
  complexity : LogicalComplexity
  intervention : HumanIntervention
deriving DecidableEq

/-- `AITask`: a specific AI-SWE task.  Free-text fields (`description`,
`examples`, `challenges`, `benchmarks`) are never read by the operations
verified here and are omitted. -/
structure AITask where
  name : String
  category : TaskCategory
  metrics : TaskMetrics
deriving DecidableEq

/-! ### Challenge data model (`challenges/__init__.py`) -/

/-- `ChallengeMetrics`: quantitative assessment of challenge impact. -/
structure ChallengeMetrics where
  severity : SeverityLevel
  frequency : ℚ
  task_coverage : ℚ
  solution_readiness : ℚ
deriving DecidableEq

/-- The `severity_weights` table local to `ChallengeMetrics.impact_score`. -/
def severity_weights : SeverityLevel → ℚ
  | .CRITICAL => 1
  | .HIGH => 0.8
  | .MEDIUM => 0.6
  | .LOW => 0.4

/-- `ChallengeMetrics.impact_score`: overall impact score. -/
def ChallengeMetrics.impact_score (m : ChallengeMetrics) : ℚ :=
  severity_weights m.severity * m.frequency * m.task_coverage *
    (1 - m.solution_readiness)

/-- `Challenge`: a specific challenge.  `affected_tasks` is a Python set of
strings used only for membership tests, modelled as a list.  Free-text fields
are omitted (see module header). -/
structure Challenge where
  name : String
  category : ChallengeCategory
  affected_tasks : List String
  metrics : ChallengeMetrics
  related_challenges : List String := []
deriving DecidableEq

/-! ### Solution data model (`solutions/__init__.py`) -/

/-- `SolutionMetrics`: quantitative assessment of solution potential. -/
structure SolutionMetrics where
  effectiveness : EffectivenessLevel
  implementation_difficulty : ℚ
  resource_requirements : ℚ
  time_to_deployment : ℚ
deriving DecidableEq

/-- The `effectiveness_weights` table local to `SolutionMetrics.feasibility_score`. -/
def effectiveness_weights : EffectivenessLevel → ℚ
  | .HIGH => 1
  | .MEDIUM => 0.7
  | .LOW => 0.4
  | .UNKNOWN => 0.5

/-- `SolutionMetrics.feasibility_score`: overall feasibility score. -/
def SolutionMetrics.feasibility_score (m : SolutionMetrics) : ℚ :=
  effectiveness_weights m.effectiveness *
    (1 - m.implementation_difficulty) *
    (1 - m.resource_requirements) *
    max 0.1 (1 - m.time_to_deployment / 24)

/-- `Solution`: a specific solution approach.  `addressed_challenges` is a
Python set of strings used only for membership tests, modelled as a list.
Free-text fields are omitted (see module header). -/
structure Solution where
  name : String
  category : SolutionCategory
  addressed_challenges : List String
  metrics : SolutionMetrics
  status : ImplementationStatus
deriving DecidableEq

/-! ### Registry insertion

Each registry stores its entries in a CPython dict keyed by `name`.
`dictInsert` models `d[key(x)] = x`: an existing key keeps its position and is
overwritten, a new key is appended. -/

/-- Dict insertion by string key: overwrite in place or append. -/
def dictInsert {α : Type} (key : α → String) (l : List α) (x : α) : List α :=
  if l.any fun y => key y == key x then
    l.map fun y => if key y == key x then x else y
  else
    l ++ [x]

/-! ### `FrameworkRegistry` (`framework/__init__.py`) -/

/-- `FrameworkRegistry`: holds the task catalog (its unused `challenges` /
`solutions` dict fields are never populated and are omitted). -/
structure FrameworkRegistry where
  tasks : List AITask
deriving DecidableEq

/-- `FrameworkRegistry.register_task`. -/
def FrameworkRegistry.register_task (reg : FrameworkRegistry) (task : AITask) :
    FrameworkRegistry :=
  { reg with tasks := dictInsert AITask.name reg.tasks task }

/-- The seed tasks of `FrameworkRegistry._initialize_core_tasks`, in
registration order. -/
def core_tasks : List AITask :=
  [{ name := "Function Completion",
     category := .CODE_GENERATION,
     metrics := ⟨.FUNCTION_LEVEL, .LOW, .LOW⟩ },
   { name := "Natural Language to Code",
     category := .CODE_GENERATION,
     metrics := ⟨.UNIT_LEVEL, .MEDIUM, .MEDIUM⟩ },
   { name := "Code Refactoring",
     category := .CODE_TRANSFORMATION,
     metrics := ⟨.PROJECT_LEVEL, .LOW, .HIGH⟩ },
   { name := "Code Migration",
     category := .CODE_TRANSFORMATION,
     metrics := ⟨.PROJECT_LEVEL, .HIGH, .HIGH⟩ },
   { name := "Unit Test Generation",
     category := .TESTING_ANALYSIS,
     metrics := ⟨.FUNCTION_LEVEL, .MEDIUM, .LOW⟩ },
   { name := "Vulnerability Detection",
     category := .TESTING_ANALYSIS,
     metrics := ⟨.PROJECT_LEVEL, .HIGH, .MEDIUM⟩ },
   { name := "Code Documentation",
     category := .SOFTWARE_MAINTENANCE,
     metrics := ⟨.UNIT_LEVEL, .LOW, .LOW⟩ },
   { name := "Code Navigation",
     category := .SOFTWARE_MAINTENANCE,
     metrics := ⟨.PROJECT_LEVEL, .MEDIUM, .MEDIUM⟩ },
   { name := "CI/CD Configuration",
     category := .SCAFFOLDING_METACODE,
     metrics := ⟨.PROJECT_LEVEL, .MEDIUM, .HIGH⟩ },
   { name := "Property Verification",
     category := .FORMAL_VERIFICATION,
     metrics := ⟨.UNIT_LEVEL, .HIGH, .HIGH⟩ }]

/-- The module-level `framework` registry after `_initialize_core_tasks`. -/
def framework : FrameworkRegistry :=
  core_tasks.foldl FrameworkRegistry.register_task { tasks := [] }

/-- Helper updating one key of a string-keyed counter (the inner
`distribution[dim][value] += 1`; the key is always present because the dict is
pre-seeded with every enum member). -/
def incrCount (m : List (String × Nat)) (k : String) : List (String × Nat) :=
  m.map fun kv => if kv.1 == k then (kv.1, kv.2 + 1) else kv

/-- `FrameworkRegistry.get_task_distribution`: per-dimension counters
pre-seeded with `0` for every enum member, then incremented per task.  (The
source uses one pass over the tasks updating all four counters; the four
independent folds here update the same entries in the same order.) -/
def FrameworkRegistry.get_task_distribution (reg : FrameworkRegistry) :
    List (String × List (String × Nat)) :=
  [("scope",
    reg.tasks.foldl (fun m t => incrCount m t.metrics.scope.value)
      (ScopeMeasure.all.map fun s => (s.value, 0))),
   ("complexity",
    reg.tasks.foldl (fun m t => incrCount m t.metrics.complexity.value)
      (LogicalComplexity.all.map fun c => (c.value, 0))),
   ("intervention",
    reg.tasks.foldl (fun m t => incrCount m t.metrics.intervention.value)
      (HumanIntervention.all.map fun i => (i.value, 0))),
   ("category",
    reg.tasks.foldl (fun m t => incrCount m t.category.value)
      (TaskCategory.all.map fun c => (c.value, 0)))]

/-! ### `ChallengeRegistry` (`challenges/__init__.py`) -/

/-- `ChallengeRegistry`: holds the challenge catalog. -/
structure ChallengeRegistry where
  challenges : List Challenge
deriving DecidableEq

/-- `ChallengeRegistry.register_challenge`. -/
def ChallengeRegistry.register_challenge (reg : ChallengeRegistry)
    (challenge : Challenge) : ChallengeRegistry :=
  { reg with challenges := dictInsert Challenge.name reg.challenges challenge }

/-- The seed challenges of `ChallengeRegistry._initialize_core_challenges`, in
registration order (before relationship wiring). -/
def core_challenges : List Challenge :=
  [{ name := "Evaluation and Benchmarks",
     category := .EVALUATION_BENCHMARKS,
     affected_tasks :=
       ["Function Completion", "Natural Language to Code", "Code Refactoring",
        "Unit Test Generation", "Code Documentation", "Property Verification"],
     metrics := ⟨.CRITICAL, 0.9, 0.8, 0.3⟩ },
   { name := "Effective Tool Usage",
     category := .EFFECTIVE_TOOL_USAGE,
     affected_tasks :=
       ["Code Migration", "Vulnerability Detection", "Code Navigation",
        "CI/CD Configuration", "Property Verification"],
     metrics := ⟨.HIGH, 0.7, 0.6, 0.4⟩ },
   { name := "Human-AI Collaboration",
     category := .HUMAN_AI_COLLABORATION,
     affected_tasks :=
       ["Natural Language to Code", "Code Refactoring", "Code Migration",
        "Code Navigation", "CI/CD Configuration"],
     metrics := ⟨.CRITICAL, 0.8, 0.9, 0.2⟩ },
   { name := "Long-Horizon Code Planning",
     category := .LONG_HORIZON_PLANNING,
     affected_tasks :=
       ["Code Refactoring", "Code Migration", "Natural Language to Code",
        "CI/CD Configuration"],
     metrics := ⟨.HIGH, 0.6, 0.5, 0.3⟩ },
   { name := "Large Scope and Long Contexts",
     category := .LARGE_SCOPE_CONTEXTS,
     affected_tasks :=
       ["Code Migration", "Code Refactoring", "Code Navigation",
        "Vulnerability Detection", "CI/CD Configuration"],
     metrics := ⟨.HIGH, 0.8, 0.7, 0.4⟩ },
   { name := "Semantic Understanding of Codebases",
     category := .SEMANTIC_UNDERSTANDING,
     affected_tasks :=
       ["Code Migration", "Vulnerability Detection", "Code Navigation",
        "Code Refactoring", "Property Verification"],
     metrics := ⟨.CRITICAL, 0.7, 0.8, 0.2⟩ },
   { name := "Low-Resource Languages and Specialized Libraries",
     category := .LOW_RESOURCE_ADAPTATION,
     affected_tasks :=
       ["Natural Language to Code", "Code Migration", "Code Documentation",
        "Unit Test Generation", "Property Verification"],
     metrics := ⟨.HIGH, 0.5, 0.4, 0.3⟩ },
   { name := "Library and API Version Updates",
     category := .VERSION_MANAGEMENT,
     affected_tasks :=
       ["Natural Language to Code", "Code Migration", "Code Documentation",
        "Unit Test Generation", "CI/CD Configuration"],
     metrics := ⟨.MEDIUM, 0.6, 0.6, 0.3⟩ },
   { name := "High Logical Complexity and OOD Domains",
     category := .HIGH_COMPLEXITY_OOD,
     affected_tasks :=
       ["Code Migration", "Vulnerability Detection", "Property Verification",
        "Natural Language to Code"],
     metrics := ⟨.CRITICAL, 0.3, 0.3, 0.1⟩ }]

/-- The `relationships` table local to
`ChallengeRegistry._initialize_challenge_relationships`, in dict-literal
order. -/
def relationships : List (String × List String) :=
  [("Evaluation and Benchmarks",
    ["Human-AI Collaboration", "Semantic Understanding"]),
   ("Effective Tool Usage",
    ["Large Scope and Long Contexts", "High Logical Complexity and OOD"]),
   ("Human-AI Collaboration",
    ["Long-Horizon Code Planning", "Evaluation and Benchmarks"]),
   ("Long-Horizon Code Planning",
    ["Semantic Understanding", "Human-AI Collaboration"]),
   ("Large Scope and Long Contexts",
    ["Semantic Understanding", "Effective Tool Usage"]),
   ("Semantic Understanding",
    ["Large Scope and Long Contexts",
     "Low-Resource Languages and Specialized Libraries"]),
   ("Low-Resource Languages and Specialized Libraries",
    ["Version Management", "Semantic Understanding"]),
   ("Library and API Version Updates",
    ["Low-Resource Languages and Specialized Libraries",
     "Human-AI Collaboration"]),
   ("High Logical Complexity and OOD Domains",
    ["Effective Tool Usage", "Long-Horizon Code Planning"])]

/-- `ChallengeRegistry._initialize_challenge_relationships`: for each table row
whose key is a registered challenge name, assign that row to the challenge's
`related_challenges`; rows whose key matches no registered name are skipped. -/
def ChallengeRegistry.initialize_challenge_relationships
    (reg : ChallengeRegistry) (table : List (String × List String)) :
    ChallengeRegistry :=
  { reg with
    challenges := table.foldl (fun cs kv =>
      if cs.any fun c => c.name == kv.1 then
        cs.map fun c =>
          if c.name == kv.1 then { c with related_challenges := kv.2 } else c
      else cs) reg.challenges }

/-- The module-level `challenge_registry` after `_initialize_core_challenges`
(registration of the nine seed challenges followed by relationship wiring). -/
def challenge_registry : ChallengeRegistry :=
  ChallengeRegistry.initialize_challenge_relationships
    (core_challenges.foldl ChallengeRegistry.register_challenge
      { challenges := [] })
    relationships

/-- `ChallengeRegistry.get_challenges_by_severity`. -/
def ChallengeRegistry.get_challenges_by_severity (reg : ChallengeRegistry)
    (severity : SeverityLevel) : List Challenge :=
  reg.challenges.filter fun c => c.metrics.severity == severity

/-- `ChallengeRegistry.get_challenge_impact_ranking`: challenges sorted by
impact score, descending.  Python's `sorted(..., key=..., reverse=True)` is
the stable descending sort, which is exactly `List.insertionSort` with the
relation `impact_score b ≤ impact_score a`. -/
def ChallengeRegistry.get_challenge_impact_ranking (reg : ChallengeRegistry) :
    List Challenge :=
  reg.challenges.insertionSort fun a b =>
    b.metrics.impact_score ≤ a.metrics.impact_score

/-- `ChallengeRegistry.get_task_challenges`: challenges whose `affected_tasks`
set contains the task name. -/
def ChallengeRegistry.get_task_challenges (reg : ChallengeRegistry)
    (task_name : String) : List Challenge :=
  reg.challenges.filter fun c => c.affected_tasks.contains task_name

/-- `ChallengeRegistry.get_priority_challenges` (default `top_n = 5`). -/
def ChallengeRegistry.get_priority_challenges (reg : ChallengeRegistry)
    (top_n : Nat := 5) : List Challenge :=
  reg.get_challenge_impact_ranking.take top_n

/-! ### `SolutionRegistry` (`solutions/__init__.py`) -/

/-- `SolutionRegistry`: holds the solution catalog. -/
structure SolutionRegistry where
  solutions : List Solution
deriving DecidableEq

/-- `SolutionRegistry.register_solution`. -/
def SolutionRegistry.register_solution (reg : SolutionRegistry)
    (solution : Solution) : SolutionRegistry :=
  { reg with solutions := dictInsert Solution.name reg.solutions solution }

/-- The seed solutions of `SolutionRegistry._initialize_core_solutions`, in
registration order. -/
def core_solutions : List Solution :=
  [{ name := "Automatic Data Curation",
     category := .DATA_COLLECTION,
     addressed_challenges :=
       ["Evaluation and Benchmarks", "Semantic Understanding of Codebases",
        "High Logical Complexity and OOD Domains"],
     metrics := ⟨.HIGH, 0.6, 0.7, 12⟩,
     status := .PROTOTYPE },
   { name := "Human-Centric Data Curation",
     category := .DATA_COLLECTION,
     addressed_challenges :=
       ["Human-AI Collaboration", "Evaluation and Benchmarks",
        "Long-Horizon Code Planning"],
     metrics := ⟨.HIGH, 0.8, 0.9, 18⟩,
     status := .RESEARCH },
   { name := "Environment Design for Code RL",
     category := .TRAINING_METHODS,
     addressed_challenges :=
       ["Long-Horizon Code Planning", "High Logical Complexity and OOD Domains",
        "Effective Tool Usage"],
     metrics := ⟨.HIGH, 0.9, 0.95, 24⟩,
     status := .PROTOTYPE },
   { name := "Specialized Codebase Adaptation",
     category := .TRAINING_METHODS,
     addressed_challenges :=
       ["Low-Resource Languages and Specialized Libraries",
        "Library and API Version Updates", "Large Scope and Long Contexts"],
     metrics := ⟨.MEDIUM, 0.7, 0.6, 15⟩,
     status := .RESEARCH },
   { name := "Human Collaboration Training",
     category := .TRAINING_METHODS,
     addressed_challenges :=
       ["Human-AI Collaboration", "Evaluation and Benchmarks",
        "Long-Horizon Code Planning"],
     metrics := ⟨.MEDIUM, 0.8, 0.7, 20⟩,
     status := .RESEARCH },
   { name := "Semantic-Aware Embeddings and Retrieval",
     category := .INFERENCE_APPROACHES,
     addressed_challenges :=
       ["Large Scope and Long Contexts", "Semantic Understanding of Codebases",
        "Low-Resource Languages and Specialized Libraries"],
     metrics := ⟨.HIGH, 0.6, 0.5, 10⟩,
     status := .PROTOTYPE },
   { name := "SWE Tool Integration",
     category := .INFERENCE_APPROACHES,
     addressed_challenges :=
       ["Effective Tool Usage", "High Logical Complexity and OOD Domains",
        "Semantic Understanding of Codebases"],
     metrics := ⟨.HIGH, 0.8, 0.7, 16⟩,
     status := .RESEARCH },
   { name := "Human Supervision Scaffolding",
     category := .INFERENCE_APPROACHES,
     addressed_challenges :=
       ["Human-AI Collaboration", "Evaluation and Benchmarks",
        "Large Scope and Long Contexts"],
     metrics := ⟨.MEDIUM, 0.5, 0.4, 8⟩,
     status := .PROTOTYPE },
   { name := "SWE Development Framework Integration",
     category := .FRAMEWORK_INTEGRATION,
     addressed_challenges :=
       ["Long-Horizon Code Planning", "Large Scope and Long Contexts",
        "Effective Tool Usage"],
     metrics := ⟨.HIGH, 0.7, 0.6, 14⟩,
     status := .PROTOTYPE }]

/-- The module-level `solution_registry` after `_initialize_core_solutions`. -/
def solution_registry : SolutionRegistry :=
  core_solutions.foldl SolutionRegistry.register_solution { solutions := [] }

/-- `SolutionRegistry.get_solutions_for_challenge`: solutions whose
`addressed_challenges` set contains the challenge name. -/
def SolutionRegistry.get_solutions_for_challenge (reg : SolutionRegistry)
    (challenge_name : String) : List Solution :=
  reg.solutions.filter fun s => s.addressed_challenges.contains challenge_name

/-- `SolutionRegistry.get_feasibility_ranking`: solutions sorted by
feasibility score, descending (stable, see
`ChallengeRegistry.get_challenge_impact_ranking`). -/
def SolutionRegistry.get_feasibility_ranking (reg : SolutionRegistry) :
    List Solution :=
  reg.solutions.insertionSort fun a b =>
    b.metrics.feasibility_score ≤ a.metrics.feasibility_score

/-- `SolutionRegistry.get_quick_wins` (default `max_time_months = 12`). -/
def SolutionRegistry.get_quick_wins (reg : SolutionRegistry)
    (max_time_months : ℚ := 12) : List Solution :=
  reg.solutions.filter fun s => s.metrics.time_to_deployment ≤ max_time_months

/-- The four roadmap bucket labels, in dict-literal order. -/
def roadmap_labels : List String :=
  ["Short-term (0-6 months)", "Medium-term (6-12 months)",
   "Long-term (12-18 months)", "Research (18+ months)"]

/-- Append a solution to the bucket with the given label. -/
def bucketAppend (roadmap : List (String × List Solution)) (label : String)
    (s : Solution) : List (String × List Solution) :=
  roadmap.map fun kv => if kv.1 == label then (kv.1, kv.2 ++ [s]) else kv

/-- `SolutionRegistry.get_implementation_roadmap`: each solution is appended
to the first bucket whose time threshold it meets. -/
def SolutionRegistry.get_implementation_roadmap (reg : SolutionRegistry) :
    List (String × List Solution) :=
  reg.solutions.foldl (fun roadmap s =>
    let time := s.metrics.time_to_deployment
    if time ≤ 6 then bucketAppend roadmap ("Short-term (0-6 months)") s
    else if time ≤ 12 then bucketAppend roadmap ("Medium-term (6-12 months)") s
    else if time ≤ 18 then bucketAppend roadmap ("Long-term (12-18 months)") s
    else bucketAppend roadmap ("Research (18+ months)") s)
    (roadmap_labels.map fun label => (label, []))

/-- `SolutionRegistry.assess_solution_coverage`: for every challenge name
known to the (seeded) challenge registry, the number of solutions addressing
it.  The source reads the module-level `challenge_registry`; the challenge
registry is passed explicitly here. -/
def SolutionRegistry.assess_solution_coverage (reg : SolutionRegistry)
    (challenge_reg : ChallengeRegistry) : List (String × Nat) :=
  challenge_reg.challenges.map fun c =>
    (c.name, (reg.get_solutions_for_challenge c.name).length)

/-- `SolutionRegistry.get_high_impact_solutions` (default
`min_effectiveness = HIGH`): effectiveness exactly equal to the given level. -/
def SolutionRegistry.get_high_impact_solutions (reg : SolutionRegistry)
    (min_effectiveness : EffectivenessLevel := .HIGH) : List Solution :=
  reg.solutions.filter fun s => s.metrics.effectiveness == min_effectiveness

/-! ### `FrameworkEvaluator` (`evaluate.py`) -/

/-- A Python runtime exception escaping an evaluator method. -/
inductive PyError where
  | typeErrorUnhashable
deriving DecidableEq

/-- The single-quote character, written without an apostrophe token. -/
def sq : String := (Char.ofNat 39).toString

/-- The structured result dict of a successful `evaluate_task` call.  The
`task`/`challenges`/`solutions` entries hold `asdict` copies of the records;
the copies are modelled by the records themselves. -/
structure TaskEvaluation where
  task : AITask
  challenges : List Challenge
  solutions : List Solution
  readiness_score : ℚ
  recommendation : String
deriving DecidableEq

/-- The dict returned by `evaluate_task`: either the not-found
`{"error": ...}` dict or the full evaluation dict. -/
inductive EvalOutput where
  | errorResult (msg : String)
  | result (r : TaskEvaluation)
deriving DecidableEq

/-- Models `list(set(task_solutions))` on `Solution` values.  `Solution` is a
`@dataclass` with the default `eq=True, frozen=False`, so CPython sets its
`__hash__` to `None`: `set()` raises `TypeError: unhashable type` as soon as
it hashes the first element, and succeeds (with an empty set) only on an
empty list. -/
def pySetDedupSolutions (l : List Solution) :
    Except PyError (List Solution) :=
  if l.isEmpty then .ok [] else .error .typeErrorUnhashable

/-- `FrameworkEvaluator._get_task_recommendation`: thresholds the readiness
score into four fixed tiers.  (The `task`/`challenges`/`solutions` parameters
of the source method are unused and omitted.) -/
def get_task_recommendation (readiness_score : ℚ) : String :=
  if 0.8 < readiness_score then
    "HIGH CONFIDENCE: Task is well-understood with mature solutions available"
  else if 0.6 < readiness_score then
    "MEDIUM CONFIDENCE: Task has some challenges but viable solutions exist"
  else if 0.4 < readiness_score then
    "LOW CONFIDENCE: Significant challenges present, solutions in development"
  else
    "RESEARCH NEEDED: Major challenges without mature solutions"

/-- The `avg_solution_readiness` / `challenge_impact` pair computed by
`evaluate_task` from the challenges affecting the task: means over the
challenges, or the `(1.0, 0.0)` defaults when no challenge applies. -/
def readiness_inputs (task_challenges : List Challenge) : ℚ × ℚ :=
  if !task_challenges.isEmpty then
    ((task_challenges.map fun c => c.metrics.solution_readiness).sum /
       task_challenges.length,
     (task_challenges.map fun c => c.metrics.impact_score).sum /
       task_challenges.length)
  else
    (1.0, 0.0)

/-- `readiness_score = max(0, avg_solution_readiness - challenge_impact)`. -/
def readiness_score_of (task_challenges : List Challenge) : ℚ :=
  max 0 ((readiness_inputs task_challenges).1 -
    (readiness_inputs task_challenges).2)

/-- `FrameworkEvaluator`: holds the three registries.  (The Claude-integration
member belongs to the excluded CLI scaffold.) -/
structure FrameworkEvaluator where
  framework : FrameworkRegistry
  challenges : ChallengeRegistry
  solutions : SolutionRegistry
deriving DecidableEq

/-- The evaluator over the seeded module-level registries. -/
def evaluator : FrameworkEvaluator :=
  { framework := framework,
    challenges := challenge_registry,
    solutions := solution_registry }

/-- `FrameworkEvaluator.evaluate_task`.  A `.ok` value is the dict the method
returns; a `.error` value is a Python exception escaping the method (the
source has no handler around `list(set(task_solutions))`). -/
def FrameworkEvaluator.evaluate_task (e : FrameworkEvaluator)
    (task_name : String) : Except PyError EvalOutput :=
  match e.framework.tasks.find? fun t => t.name == task_name with
  | none =>
    .ok (.errorResult ("Task " ++ sq ++ task_name ++ sq ++ " not found"))
  | some task =>
    let task_challenges := e.challenges.get_task_challenges task_name
    let gathered := task_challenges.foldl
      (fun acc c => acc ++ e.solutions.get_solutions_for_challenge c.name) []
    match pySetDedupSolutions gathered with
    | .error err => .error err
    | .ok task_solutions =>
      let readiness_score := readiness_score_of task_challenges
      .ok (.result
        { task := task,
          challenges := task_challenges,
          solutions := task_solutions,
          readiness_score := readiness_score,
          recommendation := get_task_recommendation readiness_score })

/-- Substring test, modelling Python's `needle in haystack` on strings. -/
def substrOf (needle haystack : String) : Bool :=
  decide (needle.toList <:+: haystack.toList)

/-- The merged roadmap dict built by
`FrameworkEvaluator.get_implementation_roadmap`.  The
`challenge_priorities` / solution entries hold `asdict` copies, modelled by
the records themselves. -/
structure EvaluatorRoadmap where
  immediate_actions : List Solution
  short_term_goals : List Solution
  medium_term_objectives : List Solution
  long_term_research : List Solution
  challenge_priorities : List Challenge
  quick_wins : List Solution
deriving DecidableEq

/-- One step of the bucket-relabelling loop in
`FrameworkEvaluator.get_implementation_roadmap`: each branch *assigns* the
target list, so a later matching bucket overwrites an earlier one. -/
def roadmap_merge_step (roadmap : EvaluatorRoadmap)
    (kv : String × List Solution) : EvaluatorRoadmap :=
  if substrOf ("Short-term") kv.1 then
    { roadmap with short_term_goals := kv.2 }
  else if substrOf ("Medium-term") kv.1 then
    { roadmap with medium_term_objectives := kv.2 }
  else if substrOf ("Long-term") kv.1 || substrOf ("Research") kv.1 then
    { roadmap with long_term_research := kv.2 }
  else roadmap

/-- `FrameworkEvaluator.get_implementation_roadmap`: relabels the Solution
Registry roadmap buckets via `roadmap_merge_step`, attaches the top-5
priority challenges, and intersects `get_quick_wins(6)` with
`get_high_impact_solutions()` by list membership. -/
def FrameworkEvaluator.get_implementation_roadmap (e : FrameworkEvaluator) :
    EvaluatorRoadmap :=
  let solution_roadmap := e.solutions.get_implementation_roadmap
  let challenge_priorities := e.challenges.get_priority_challenges
  let quick_wins := e.solutions.get_quick_wins 6
  let high_impact := e.solutions.get_high_impact_solutions
  solution_roadmap.foldl roadmap_merge_step
    { immediate_actions := [],
      short_term_goals := [],
      medium_term_objectives := [],
      long_term_research := [],
      challenge_priorities := challenge_priorities,
      quick_wins := quick_wins.filter fun s => high_impact.contains s }

/-- The total `(challenge, solution)` addressing pairs: the pairs of the full
cartesian product of the two registries in which the solution's
`addressed_challenges` set contains the challenge's name. -/
def addressing_pairs (challenge_reg : ChallengeRegistry)
    (reg : SolutionRegistry) : List (Challenge × Solution) :=
  (challenge_reg.challenges.flatMap fun c =>
      reg.solutions.map fun s => (c, s)).filter
    fun p => p.2.addressed_challenges.contains p.1.name

/-- The challenge `Evaluation and Benchmarks` as it sits in the wired seeded
registry (its `related_challenges` assigned by the relationship pass). -/
def eb_wired : Challenge :=
  { name := "Evaluation and Benchmarks",
    category := .EVALUATION_BENCHMARKS,
    affected_tasks :=
      ["Function Completion", "Natural Language to Code", "Code Refactoring",
       "Unit Test Generation", "Code Documentation", "Property Verification"],
    metrics := ⟨.CRITICAL, 0.9, 0.8, 0.3⟩,
    related_challenges := ["Human-AI Collaboration", "Semantic Understanding"] }

/-! ### Claim theorems -/

deriving instance DecidableEq for Except

/-- Claim C1 (code evaluated at the failing input): `evaluate_task` does NOT
return a structured result for registered task names.  For the registered
task name `Function Completion` (and in fact for every registered task name)
the call raises `TypeError` at `list(set(task_solutions))`, because every
seeded task is affected by at least one challenge whose addressing-solution
list is non-empty and `Solution` dataclass instances are unhashable.  So
NotFound is not the only failure mode the core exposes. -/
theorem evaluate_task_raises_typeError_on_registered_tasks :
    evaluator.evaluate_task ("Function Completion") =
      .error .typeErrorUnhashable ∧
    (framework.tasks.all fun t =>
      match evaluator.evaluate_task t.name with
      | .error _ => true
      | .ok _ => false) = true := by
  decide

/-- Claim C2 counterexample: on the seeded dataset, `Function Completion` is
affected by one challenge (`Evaluation and Benchmarks` lists it in
`affected_tasks`), not zero as the claim states. -/
theorem function_completion_has_an_affecting_challenge :
    (challenge_registry.get_task_challenges ("Function Completion")).map
        Challenge.name = ["Evaluation and Benchmarks"] ∧
    ¬ (challenge_registry.get_task_challenges
        ("Function Completion")).length = 0 := by
  decide

/-- Claim C2 (amended): on the seeded dataset exactly one challenge,
`Evaluation and Benchmarks`, affects `Function Completion`; the
`evaluate_task` call then raises `TypeError` at the duplicate-removal step;
the readiness computation the code performs on that challenge set gives
average solution readiness `0.3`, average challenge impact `0.504`, hence
`readiness_score = max(0, 0.3 - 0.504) = 0` and the `RESEARCH NEEDED`
recommendation tier, not `1.0` / `HIGH CONFIDENCE`. -/
theorem function_completion_evaluation_amended :
    challenge_registry.get_task_challenges ("Function Completion") =
      [eb_wired] ∧
    evaluator.evaluate_task ("Function Completion") =
      .error .typeErrorUnhashable ∧
    readiness_inputs [eb_wired] = (0.3, 0.504) ∧
    readiness_score_of [eb_wired] = 0 ∧
    get_task_recommendation 0 =
      "RESEARCH NEEDED: Major challenges without mature solutions" := by
  have hin : readiness_inputs [eb_wired] = (0.3, 0.504) := by
    norm_num [readiness_inputs, eb_wired, ChallengeMetrics.impact_score,
      severity_weights]
  refine ⟨rfl, by decide, hin, ?_, ?_⟩
  · rw [readiness_score_of, hin]
    norm_num [max_eq_left]
  · norm_num [get_task_recommendation]

/-- Claim C3 counterexample: on the seeded dataset the scope distribution
counts 5 project-level tasks (there are 10 seeded tasks, not 9), so the
claimed `project == 4` is false. -/
theorem scope_distribution_project_count_is_five :
    ((framework.get_task_distribution.lookup ("scope")).bind
        fun m => m.lookup ("project")) = some 5 ∧
    ((framework.get_task_distribution.lookup ("scope")).bind
        fun m => m.lookup ("project")) ≠ some 4 := by
  decide

/-- Claim C10: the relationship-wiring pass assigns `related_challenges` only
for table keys exactly matching a registered challenge name and silently
skips unmatched keys.  On the seeded registry every challenge except
`Semantic Understanding of Codebases` receives its table row; that challenge
keeps an empty list because its table key `Semantic Understanding` (which is
present in the table) matches no registered name. -/
theorem relationship_wiring_skips_unmatched_keys :
    (challenge_registry.challenges.map fun c =>
        (c.name, c.related_challenges)) =
      [("Evaluation and Benchmarks",
        ["Human-AI Collaboration", "Semantic Understanding"]),
       ("Effective Tool Usage",
        ["Large Scope and Long Contexts", "High Logical Complexity and OOD"]),
       ("Human-AI Collaboration",
        ["Long-Horizon Code Planning", "Evaluation and Benchmarks"]),
       ("Long-Horizon Code Planning",
        ["Semantic Understanding", "Human-AI Collaboration"]),
       ("Large Scope and Long Contexts",
        ["Semantic Understanding", "Effective Tool Usage"]),
       ("Semantic Understanding of Codebases", []),
       ("Low-Resource Languages and Specialized Libraries",
        ["Version Management", "Semantic Understanding"]),
       ("Library and API Version Updates",
        ["Low-Resource Languages and Specialized Libraries",
         "Human-AI Collaboration"]),
       ("High Logical Complexity and OOD Domains",
        ["Effective Tool Usage", "Long-Horizon Code Planning"])] ∧
    ("Semantic Understanding" : String) ∉
      challenge_registry.challenges.map Challenge.name ∧
    ("Semantic Understanding" : String) ∈ relationships.map Prod.fst := by
  decide

/-- The severity weight is between 0 and 1 for every severity level. -/
lemma severity_weights_mem_unit (s : SeverityLevel) :
    0 ≤ severity_weights s ∧ severity_weights s ≤ 1 := by
  cases s <;> norm_num [severity_weights]

/-- Claim C6: for metrics whose `frequency`, `task_coverage` and
`solution_readiness` lie in `[0,1]`, `impact_score` equals
`severity_weight × frequency × task_coverage × (1 − solution_readiness)`,
lies in `[0,1]`, and is non-increasing in `solution_readiness` with the other
fields held fixed (witnessed by any second readiness value `r ≥` the
first). -/
theorem impact_score_formula_bounds_monotone (m : ChallengeMetrics) (r : ℚ)
    (hf0 : 0 ≤ m.frequency) (hf1 : m.frequency ≤ 1)
    (hc0 : 0 ≤ m.task_coverage) (hc1 : m.task_coverage ≤ 1)
    (hs0 : 0 ≤ m.solution_readiness) (hs1 : m.solution_readiness ≤ 1)
    (hr : m.solution_readiness ≤ r) :
    m.impact_score =
      severity_weights m.severity * m.frequency * m.task_coverage *
        (1 - m.solution_readiness) ∧
    0 ≤ m.impact_score ∧ m.impact_score ≤ 1 ∧
    ChallengeMetrics.impact_score { m with solution_readiness := r } ≤
      m.impact_score := by
  obtain ⟨hw0, hw1⟩ := severity_weights_mem_unit m.severity
  have hwf0 : 0 ≤ severity_weights m.severity * m.frequency :=
    mul_nonneg hw0 hf0
  have hwfc0 : 0 ≤ severity_weights m.severity * m.frequency *
      m.task_coverage := mul_nonneg hwf0 hc0
  have hwf1 : severity_weights m.severity * m.frequency ≤ 1 :=
    mul_le_one₀ hw1 hf0 hf1
  have hwfc1 : severity_weights m.severity * m.frequency *
      m.task_coverage ≤ 1 := mul_le_one₀ hwf1 hc0 hc1
  refine ⟨rfl, ?_, ?_, ?_⟩
  · exact mul_nonneg hwfc0 (by linarith)
  · exact mul_le_one₀ hwfc1 (by linarith) (by linarith)
  · exact mul_le_mul_of_nonneg_left (by linarith) hwfc0

/-- Witness for claim C6 at the seeded metrics of
`Evaluation and Benchmarks` and second readiness value `0.5`. -/
theorem impact_score_witness :
    ChallengeMetrics.impact_score ⟨.CRITICAL, 0.9, 0.8, 0.3⟩ =
      severity_weights .CRITICAL * 0.9 * 0.8 * (1 - 0.3) ∧
    0 ≤ ChallengeMetrics.impact_score ⟨.CRITICAL, 0.9, 0.8, 0.3⟩ ∧
    ChallengeMetrics.impact_score ⟨.CRITICAL, 0.9, 0.8, 0.3⟩ ≤ 1 ∧
    ChallengeMetrics.impact_score ⟨.CRITICAL, 0.9, 0.8, 0.5⟩ ≤
      ChallengeMetrics.impact_score ⟨.CRITICAL, 0.9, 0.8, 0.3⟩ :=
  impact_score_formula_bounds_monotone ⟨.CRITICAL, 0.9, 0.8, 0.3⟩ 0.5
    (by norm_num) (by norm_num) (by norm_num) (by norm_num)
    (by norm_num) (by norm_num) (by norm_num)

/-- The effectiveness weight is strictly positive for every level. -/
lemma effectiveness_weights_pos (e : EffectivenessLevel) :
    0 < effectiveness_weights e := by
  cases e <;> norm_num [effectiveness_weights]

/-- Claim C7: for metrics whose `implementation_difficulty` and
`resource_requirements` lie in `[0,1]` and whose `time_to_deployment` is
nonnegative, `feasibility_score` is nonnegative, and it is zero exactly when
`implementation_difficulty = 1` or `resource_requirements = 1` (the
effectiveness weight and the clamped time factor are strictly positive). -/
theorem feasibility_score_nonneg_zero_iff (m : SolutionMetrics)
    (hd0 : 0 ≤ m.implementation_difficulty)
    (hd1 : m.implementation_difficulty ≤ 1)
    (hr0 : 0 ≤ m.resource_requirements)
    (hr1 : m.resource_requirements ≤ 1)
    (ht : 0 ≤ m.time_to_deployment) :
    0 ≤ m.feasibility_score ∧
    (m.feasibility_score = 0 ↔
      m.implementation_difficulty = 1 ∨ m.resource_requirements = 1) := by
  have hw : 0 < effectiveness_weights m.effectiveness :=
    effectiveness_weights_pos m.effectiveness
  have hm : (0 : ℚ) < max 0.1 (1 - m.time_to_deployment / 24) :=
    lt_of_lt_of_le (by norm_num) (le_max_left _ _)
  constructor
  · exact mul_nonneg
      (mul_nonneg (mul_nonneg hw.le (by linarith)) (by linarith)) hm.le
  · rw [SolutionMetrics.feasibility_score]
    simp only [mul_eq_zero, hw.ne', hm.ne', or_false, false_or,
      sub_eq_zero]
    constructor
    · rintro (h | h)
      · exact Or.inl h.symm
      · exact Or.inr h.symm
    · rintro (h | h)
      · exact Or.inl h.symm
      · exact Or.inr h.symm

/-- Witness for claim C7 at the seeded metrics of
`Automatic Data Curation`. -/
theorem feasibility_score_witness :
    0 ≤ SolutionMetrics.feasibility_score ⟨.HIGH, 0.6, 0.7, 12⟩ ∧
    (SolutionMetrics.feasibility_score ⟨.HIGH, 0.6, 0.7, 12⟩ = 0 ↔
      (0.6 : ℚ) = 1 ∨ (0.7 : ℚ) = 1) :=
  feasibility_score_nonneg_zero_iff ⟨.HIGH, 0.6, 0.7, 12⟩
    (by norm_num) (by norm_num) (by norm_num) (by norm_num) (by norm_num)

/-- Claim C9: for every task name not present in the Task Registry,
`evaluate_task` returns the structured `{"error": ...}` NotFound dict naming
the missing task (not a raised exception).  The embedding is a pure function
of the registries, and the not-found branch of the source performs no writes,
so the registries are unchanged by the call. -/
theorem evaluate_task_not_found (task_name : String)
    (h : task_name ∉ framework.tasks.map AITask.name) :
    evaluator.evaluate_task task_name =
      .ok (.errorResult
        ("Task " ++ sq ++ task_name ++ sq ++ " not found")) := by
  have hnone :
      evaluator.framework.tasks.find? (fun t => t.name == task_name) =
        none := by
    rw [List.find?_eq_none]
    intro t ht
    simp only [beq_iff_eq]
    intro he
    exact h (he ▸ List.mem_map_of_mem AITask.name ht)
  simp only [FrameworkEvaluator.evaluate_task, hnone]

/-- Witness for claim C9 at the concrete name `nonexistent-task`. -/
theorem evaluate_task_not_found_witness :
    ("nonexistent-task" : String) ∉ framework.tasks.map AITask.name ∧
    evaluator.evaluate_task ("nonexistent-task") =
      .ok (.errorResult
        ("Task " ++ sq ++ "nonexistent-task" ++ sq ++ " not found")) :=
  ⟨by decide, evaluate_task_not_found ("nonexistent-task") (by decide)⟩

/-- `incrCount` never changes the key list of a counter. -/
lemma incrCount_keys (m : List (String × Nat)) (k : String) :
    (incrCount m k).map Prod.fst = m.map Prod.fst := by
  simp only [incrCount, List.map_map]
  apply List.map_congr_left
  intro kv _
  by_cases h : kv.1 = k <;> simp [h]

/-- Folding key-preserving updates over a list never changes the key list. -/
lemma foldl_keys_invariant {β : Type}
    (f : List (String × Nat) → β → List (String × Nat))
    (hf : ∀ m b, (f m b).map Prod.fst = m.map Prod.fst) :
    ∀ (l : List β) (m : List (String × Nat)),
      (l.foldl f m).map Prod.fst = m.map Prod.fst
  | [], _ => rfl
  | b :: l, m => by
    rw [List.foldl_cons, foldl_keys_invariant f hf l, hf]

/-- Claim C3 (amended): `get_task_distribution` has, for each of the four
dimensions, a count for every enum member (0 for unused values, since the
counters are pre-seeded over the full enums and the increments never change
the key lists); on the seeded dataset (10 tasks, not 9) the scope counts are
`function == 2`, `unit == 3`, `project == 5`, summing to 10. -/
theorem task_distribution_amended :
    (∀ reg : FrameworkRegistry,
      reg.get_task_distribution.map Prod.fst =
        ["scope", "complexity", "intervention", "category"] ∧
      reg.get_task_distribution.map (fun kv => kv.2.map Prod.fst) =
        [ScopeMeasure.all.map ScopeMeasure.value,
         LogicalComplexity.all.map LogicalComplexity.value,
         HumanIntervention.all.map HumanIntervention.value,
         TaskCategory.all.map TaskCategory.value]) ∧
    framework.get_task_distribution =
      [("scope", [("function", 2), ("unit", 3), ("project", 5)]),
       ("complexity", [("low", 3), ("medium", 4), ("high", 3)]),
       ("intervention", [("low", 3), ("medium", 3), ("high", 4)]),
       ("category",
        [("code_generation", 2), ("code_transformation", 2),
         ("testing_analysis", 2), ("software_maintenance", 2),
         ("scaffolding_metacode", 1), ("formal_verification", 1)])] ∧
    2 + 3 + 5 = framework.tasks.length := by
  refine ⟨?_, by decide, by decide⟩
  intro reg
  constructor
  · rfl
  · simp only [FrameworkRegistry.get_task_distribution, List.map_cons,
      List.map_nil,
      foldl_keys_invariant _ (fun m t => incrCount_keys m _) reg.tasks,
      List.map_map]
    rfl

/-- Claim C5: for every pair of registries, the sum of the `coverage()`
values equals the total number of `(challenge, solution)` addressing pairs;
on the seeded dataset every one of the 9 challenge names has coverage at
least 1. -/
theorem coverage_sum_counts_addressing_pairs :
    (∀ (sreg : SolutionRegistry) (creg : ChallengeRegistry),
      ((sreg.assess_solution_coverage creg).map Prod.snd).sum =
        (addressing_pairs creg sreg).length) ∧
    (solution_registry.assess_solution_coverage challenge_registry).all
      (fun p => decide (1 ≤ p.2)) = true := by
  refine ⟨?_, by decide⟩
  intro sreg creg
  obtain ⟨ss⟩ := sreg
  obtain ⟨cs⟩ := creg
  induction cs with
  | nil => rfl
  | cons c cs ih =>
    simp only [SolutionRegistry.assess_solution_coverage, addressing_pairs,
      SolutionRegistry.get_solutions_for_challenge, List.map_cons,
      List.sum_cons, List.flatMap_cons, List.filter_append,
      List.length_append] at ih ⊢
    rw [ih, List.filter_map, List.length_map]
    rfl

/-- Inserting into a list with the descending-by-score relation either
prepends the element to the score-class filter (when it has the filtered
score) or leaves that filter unchanged. -/
lemma filter_orderedInsert {α : Type} (f : α → ℚ) (q : ℚ) (x : α)
    (l : List α) :
    (List.orderedInsert (fun a b => f b ≤ f a) x l).filter
        (fun y => decide (f y = q)) =
      if f x = q then x :: l.filter (fun y => decide (f y = q))
      else l.filter (fun y => decide (f y = q)) := by
  induction l with
  | nil =>
    by_cases hx : f x = q <;> simp [hx]
  | cons y ys ih =>
    by_cases hxy : f y ≤ f x
    · simp only [List.orderedInsert]
      rw [if_pos hxy]
      by_cases hx : f x = q <;> by_cases hy : f y = q <;>
        simp [hx, hy, List.filter_cons]
    · simp only [List.orderedInsert]
      rw [if_neg hxy, List.filter_cons]
      by_cases hx : f x = q
      · have hy : ¬ f y = q :=
          fun hyq => (lt_of_not_le hxy).ne' (hyq.trans hx.symm)
        rw [ih]
        simp [hx, hy, List.filter_cons]
      · rw [ih]
        simp [hx, List.filter_cons]

/-- Stability of the descending insertion sort: for every score value, the
sub-list of entries having that score is exactly the one of the input, so
score-tied entries keep their relative order. -/
lemma filter_insertionSort {α : Type} (f : α → ℚ) (q : ℚ) (l : List α) :
    (l.insertionSort (fun a b => f b ≤ f a)).filter
        (fun y => decide (f y = q)) =
      l.filter (fun y => decide (f y = q)) := by
  induction l with
  | nil => rfl
  | cons x xs ih =>
    simp only [List.insertionSort]
    rw [filter_orderedInsert]
    by_cases hx : f x = q <;> simp [hx, ih]

/-- Claim C8: each ranking is a permutation of the registered entries, is
sorted by its score in descending order, and is stable: for every score
value `q`, the sub-list of entries scoring `q` equals that of the
registration-order list, i.e. score-tied entries keep their relative
registration order. -/
theorem rankings_are_stable_descending_sorts :
    (∀ creg : ChallengeRegistry,
      creg.get_challenge_impact_ranking.Perm creg.challenges ∧
      creg.get_challenge_impact_ranking.Sorted
        (fun a b => b.metrics.impact_score ≤ a.metrics.impact_score) ∧
      ∀ q : ℚ,
        creg.get_challenge_impact_ranking.filter
            (fun c => decide (c.metrics.impact_score = q)) =
          creg.challenges.filter
            (fun c => decide (c.metrics.impact_score = q))) ∧
    (∀ sreg : SolutionRegistry,
      sreg.get_feasibility_ranking.Perm sreg.solutions ∧
      sreg.get_feasibility_ranking.Sorted
        (fun a b => b.metrics.feasibility_score ≤ a.metrics.feasibility_score) ∧
      ∀ q : ℚ,
        sreg.get_feasibility_ranking.filter
            (fun s => decide (s.metrics.feasibility_score = q)) =
          sreg.solutions.filter
            (fun s => decide (s.metrics.feasibility_score = q))) := by
  constructor
  · intro creg
    haveI : IsTotal Challenge
        (fun a b => b.metrics.impact_score ≤ a.metrics.impact_score) :=
      ⟨fun _ _ => le_total _ _⟩
    haveI : IsTrans Challenge
        (fun a b => b.metrics.impact_score ≤ a.metrics.impact_score) :=
      ⟨fun _ _ _ h1 h2 => le_trans h2 h1⟩
    exact ⟨List.perm_insertionSort _ _, List.sorted_insertionSort _ _,
      fun q => filter_insertionSort (fun c : Challenge => c.metrics.impact_score) q _⟩
  · intro sreg
    haveI : IsTotal Solution
        (fun a b => b.metrics.feasibility_score ≤ a.metrics.feasibility_score) :=
      ⟨fun _ _ => le_total _ _⟩
    haveI : IsTrans Solution
        (fun a b => b.metrics.feasibility_score ≤ a.metrics.feasibility_score) :=
      ⟨fun _ _ _ h1 h2 => le_trans h2 h1⟩
    exact ⟨List.perm_insertionSort _ _, List.sorted_insertionSort _ _,
      fun q => filter_insertionSort (fun s : Solution => s.metrics.feasibility_score) q _⟩

/-- The bucket-relabelling loop never touches the `quick_wins` entry. -/
lemma foldl_roadmap_merge_step_quick_wins :
    ∀ (l : List (String × List Solution)) (rd : EvaluatorRoadmap),
      (l.foldl roadmap_merge_step rd).quick_wins = rd.quick_wins
  | [], _ => rfl
  | kv :: l, rd => by
    rw [List.foldl_cons, foldl_roadmap_merge_step_quick_wins l]
    simp only [roadmap_merge_step]
    split_ifs <;> rfl

/-- Claim C4 counterexample: the solution `Human-Centric Data Curation` sits
in the `Long-term (12-18 months)` bucket of the Solution Registry
`roadmap()`, yet appears in none of the four relabeled lists of the merged
evaluator roadmap (the `Research` bucket assignment overwrites the
`Long-term` one), so not every solution of a `roadmap()` bucket appears in
exactly one of the four lists. -/
theorem merged_roadmap_drops_long_term_bucket :
    (solution_registry.get_implementation_roadmap.map fun kv =>
        (kv.1, kv.2.map Solution.name)) =
      [("Short-term (0-6 months)", []),
       ("Medium-term (6-12 months)",
        ["Automatic Data Curation", "Semantic-Aware Embeddings and Retrieval",
         "Human Supervision Scaffolding"]),
       ("Long-term (12-18 months)",
        ["Human-Centric Data Curation", "Specialized Codebase Adaptation",
         "SWE Tool Integration", "SWE Development Framework Integration"]),
       ("Research (18+ months)",
        ["Environment Design for Code RL", "Human Collaboration Training"])] ∧
    ("Human-Centric Data Curation" : String) ∉
      (evaluator.get_implementation_roadmap.immediate_actions ++
        evaluator.get_implementation_roadmap.short_term_goals ++
        evaluator.get_implementation_roadmap.medium_term_objectives ++
        evaluator.get_implementation_roadmap.long_term_research).map
        Solution.name := by
  decide

/-- Claim C4 (amended): in the merged roadmap the `quick_wins` list contains
exactly the solutions that are both deployable within 6 months and of HIGH
effectiveness; but the bucket relabelling drops the `Long-term` bucket (its
assignment is overwritten by the `Research` bucket) and never fills
`immediate_actions`: on the seeded data the merged lists hold only the
`Medium-term` and `Research` buckets, the `Short-term` bucket being empty,
so the four `Long-term`-bucket solutions appear in none of the lists and
`quick_wins` is empty. -/
theorem implementation_roadmap_amended :
    (∀ (e : FrameworkEvaluator) (s : Solution),
      s ∈ e.get_implementation_roadmap.quick_wins ↔
        s ∈ e.solutions.solutions ∧ s.metrics.time_to_deployment ≤ 6 ∧
          s.metrics.effectiveness = .HIGH) ∧
    evaluator.get_implementation_roadmap.immediate_actions = [] ∧
    evaluator.get_implementation_roadmap.short_term_goals = [] ∧
    evaluator.get_implementation_roadmap.medium_term_objectives.map
        Solution.name =
      ["Automatic Data Curation", "Semantic-Aware Embeddings and Retrieval",
       "Human Supervision Scaffolding"] ∧
    evaluator.get_implementation_roadmap.long_term_research.map
        Solution.name =
      ["Environment Design for Code RL", "Human Collaboration Training"] ∧
    evaluator.get_implementation_roadmap.quick_wins = [] := by
  refine ⟨?_, by decide, by decide, by decide, by decide, by decide⟩
  intro e s
  simp only [FrameworkEvaluator.get_implementation_roadmap,
    foldl_roadmap_merge_step_quick_wins]
  simp only [SolutionRegistry.get_quick_wins,
    SolutionRegistry.get_high_impact_solutions, List.mem_filter,
    List.contains, List.elem_iff, decide_eq_true_eq, beq_iff_eq]
  constructor
  · rintro ⟨⟨hs, ht⟩, -, hh⟩
    exact ⟨hs, ht, hh⟩
  · rintro ⟨hs, ht, hh⟩
    exact ⟨⟨hs, ht⟩, hs, hh⟩

end AiSwe
